import Mathlib

/-!
Shallow embedding of the KVMD web stream clients and proofs about them.

Embedded sources:
* `MediaStreamer` — the direct H.264 streamer over WebSocket plus the
  `VideoDecoder` API (src/unnamed/part_001): connection supervision with a
  heartbeat, the binary sub-protocol, decoder lifecycle, the single-slot
  frame buffer and the orientation-aware renderer.
* `MjpegStreamer` — the HTTP MJPEG polling streamer
  (src/web/share/js/kvm/stream_mjpeg.js): session-key / client-id
  correlation against externally supplied snapshots and the bounded
  polling supervisor.

State is modelled as explicit records; each handler is a pure function
from state to state paired with the observable side effects it performs
(messages sent, timers scheduled, frames released, callbacks invoked).
-/

namespace Media

/-- A decoded video frame delivered by the `VideoDecoder` output callback.
`id` identifies the frame object; `displayWidth` / `displayHeight` are its
natural display dimensions. -/
structure Frame where
  id : Nat
  displayWidth : Nat
  displayHeight : Nat
deriving Repr, DecidableEq

/-- The `VideoDecoder.state` attribute values. -/
inductive DecState
  | unconfigured
  | configured
  | closed
deriving Repr, DecidableEq

/-- Mutable state of one `MediaStreamer` instance (src/unnamed/part_001).
`ws = true` models `__ws !== null`; `state` models `__state` reduced to the
only part the streamer reads, the truthiness of `__state.source.online`
(`none` for a null `__state`).  `canvasW` / `canvasH` are the canvas
dimensions, `orient` is the constructor parameter `__orient` (never
written). -/
structure MediaState where
  stop : Bool
  ensuring : Bool
  ws : Bool
  ping_timer : Bool
  missed_heartbeats : Nat
  codec : String
  decoder : Option DecState
  frame : Option Frame
  canvasW : Nat
  canvasH : Nat
  fps_accum : Nat
  state : Option Bool
  orient : Nat
deriving Repr, DecidableEq

/-- Observable side effects of one handler run: binary messages sent on the
socket, `start` JSON requests (the format-negotiation round trip), codec
strings passed to `decoder.configure`, scheduled reconnect delays in ms,
ids of frames passed to `__closeFrame`, calls of the `__setActive` /
`__setInactive` / `__setInfo` / `__organizeHook` callbacks,
`requestAnimationFrame` schedulings, newly created WebSocket connections,
and decode submissions. -/
structure Eff where
  sent : List (List Nat)
  startReqs : Nat
  configured : List String
  reconnects : List Nat
  released : List Nat
  actives : Nat
  inactives : Nat
  infos : List (Bool × Bool × String)
  organizes : Nat
  rafs : Nat
  opened : Nat
  decodes : Nat
deriving Repr, DecidableEq

/-- No side effects. -/
def Eff.nil : Eff := ⟨[], 0, [], [], [], 0, 0, [], 0, 0, 0, 0⟩

/-- Sequencing of side effects. -/
def Eff.app (a b : Eff) : Eff :=
  ⟨a.sent ++ b.sent, a.startReqs + b.startReqs, a.configured ++ b.configured,
   a.reconnects ++ b.reconnects, a.released ++ b.released, a.actives + b.actives,
   a.inactives + b.inactives, a.infos ++ b.infos, a.organizes + b.organizes,
   a.rafs + b.rafs, a.opened + b.opened, a.decodes + b.decodes⟩

/-- `__closeFrame` (part_001:394): release one decoded frame.  (On Firefox
the source skips the actual `frame.close()` call as a documented
workaround and relies on the engine auto-closing the frame; we record the
release obligation being discharged, i.e. the `__closeFrame` call.) -/
def closeFrame (f : Frame) : Eff := { Eff.nil with released := [f.id] }

/-- `__closeDecoder` (part_001:325): if a decoder exists, close it and, in
the `finally` blocks, clear the codec id and the decoder and release any
pending undrawn frame.  When `__decoder` is already null nothing happens. -/
def closeDecoder (s : MediaState) : MediaState × Eff :=
  if s.decoder = none then (s, Eff.nil)
  else
    ({ s with codec := "", decoder := none, frame := none },
     match s.frame with
     | some f => closeFrame f
     | none => Eff.nil)

/-- `__wsCloseHandler` (part_001:213): stop the heartbeat timer, tear the
decoder down, clear the counters, mark disconnected, and unless stopped
schedule one reconnection attempt after 1000 ms. -/
def wsCloseHandler (s : MediaState) : MediaState × Eff :=
  let s := { s with ping_timer := false }
  let (s, e) := closeDecoder s
  let s := { s with missed_heartbeats := 0, fps_accum := 0, ws := false }
  if s.stop then (s, e) else (s, Eff.app e { Eff.nil with reconnects := [1000] })

/-- `__wsForceClose` (part_001:188): close the socket with the close event
suppressed, run the close handler directly, report inactive. -/
def wsForceClose (s : MediaState) : MediaState × Eff :=
  let (s, e) := wsCloseHandler s
  (s, Eff.app e { Eff.nil with inactives := 1 })

/-- `__wsErrorHandler` (part_001:202): report the error text and force the
connection closed. -/
def wsErrorHandler (msg : String) (s : MediaState) : MediaState × Eff :=
  let (s, e) := wsForceClose s
  (s, Eff.app { Eff.nil with infos := [(false, false, msg)] } e)

/-- `__wsOpenHandler` (part_001:155): reset the heartbeat counter and start
the 1000 ms heartbeat interval. -/
def wsOpenHandler (s : MediaState) : MediaState :=
  { s with missed_heartbeats := 0, ping_timer := true }

/-- `__ping` (part_001:165): one heartbeat tick.  Increment the miss
counter; at 5 the thrown error lands in `__wsErrorHandler`; otherwise send
the one-byte probe and, with a configured decoder, emit the fps info and
reset the fps accumulator. -/
def ping (s : MediaState) : MediaState × Eff :=
  let s := { s with missed_heartbeats := s.missed_heartbeats + 1 }
  if 5 ≤ s.missed_heartbeats then
    wsErrorHandler "Too many missed heartbeats" s
  else
    let e := { Eff.nil with sent := [[0]] }
    if s.decoder = some DecState.configured then
      let online := s.state.getD false
      let info := toString s.fps_accum ++ " fps dynamic"
      ({ s with fps_accum := 0 }, Eff.app e { Eff.nil with infos := [(true, online, info)] })
    else (s, e)

/-- `__ensureMedia` (part_001:124): open a new connection only when none
exists, the streamer is not stopped, and (unless this is the internal
retry) no attempt is already in progress. -/
def ensureMedia (internal : Bool) (s : MediaState) : MediaState × Eff :=
  if s.ws = false ∧ s.stop = false ∧ (s.ensuring = false ∨ internal = true) then
    ({ s with ensuring := true, ws := true },
     { Eff.nil with inactives := 1, infos := [(false, false, "")], opened := 1 })
  else (s, Eff.nil)

/-- `self.ensureStream` (part_001:102): record the snapshot, clear the stop
flag, ensure the connection. -/
def ensureStream (st : Option Bool) (s : MediaState) : MediaState × Eff :=
  ensureMedia false { s with state := st, stop := false }

/-- `self.stopStream` (part_001:112): set the stop flag, force-close, and
report empty info. -/
def stopStream (s : MediaState) : MediaState × Eff :=
  let (s, e) := wsForceClose { s with stop := true, ensuring := false }
  (s, Eff.app e { Eff.nil with infos := [(false, false, "")] })

/-- `__ensureDecoder` (part_001:286): with no negotiated codec, refuse.
With a null or closed decoder, tear down while saving and restoring the
codec id, create a fresh decoder and resend the one-byte probe.  With an
unconfigured decoder, refuse on a delta frame and configure on a
keyframe; a successful `decoder.configure` is modelled as the decoder
reaching the configured state and is recorded in `Eff.configured`.
Returns the post-state with effects, and the boolean the source returns. -/
def ensureDecoder (key : Bool) (s : MediaState) : (MediaState × Eff) × Bool :=
  if s.codec = "" then ((s, Eff.nil), false)
  else
    let started : Bool := s.codec != ""
    let saved := s.codec
    let (s, e) :=
      if s.decoder = none ∨ s.decoder = some DecState.closed then
        let (s, e) := closeDecoder s
        let s := { s with codec := saved, decoder := some DecState.unconfigured }
        if started then (s, Eff.app e { Eff.nil with sent := [[0]] }) else (s, e)
      else (s, Eff.nil)
    if s.decoder ≠ some DecState.configured then
      if key = false then ((s, e), false)
      else
        let s := { s with decoder := some DecState.configured }
        let e := Eff.app e { Eff.nil with configured := [s.codec] }
        ((s, Eff.app e { Eff.nil with actives := 1 }), true)
    else ((s, Eff.app e { Eff.nil with actives := 1 }), true)

/-- `__setupCodec` (part_001:245): tear the decoder down; if no H.264
format is advertised or the platform lacks `VideoDecoder` (distinguishing
the HTTPS requirement), report a diagnostic and stop; otherwise derive the
codec id from the advertised profile/level and request the streaming
start (the negotiation round trip, counted in `Eff.startReqs`). -/
def setupCodec (videoDecoderAvailable isHttps : Bool) (h264ProfileLevelId : Option String)
    (s : MediaState) : MediaState × Eff :=
  let (s, e) := closeDecoder s
  match h264ProfileLevelId with
  | none =>
    (s, Eff.app e { Eff.nil with infos := [(false, false, "No H.264 stream available on PiKVM")] })
  | some plid =>
    if videoDecoderAvailable = false then
      let apos := String.singleton (Char.ofNat 39)
      let msg := if isHttps then "This browser can" ++ apos ++ "t handle direct H.264 stream"
                 else "Direct H.264 requires HTTPS"
      (s, Eff.app e { Eff.nil with infos := [(false, false, msg)] })
    else
      ({ s with codec := "avc1." ++ plid }, Eff.app e { Eff.nil with startReqs := 1 })

/-- `__renderFrame` (part_001:343), the decoder output callback: with an
empty pending slot, buffer the frame and schedule one animation-frame
callback; otherwise discard the new frame immediately. -/
def renderFrame (f : Frame) (s : MediaState) : MediaState × Eff :=
  if s.frame = none then
    ({ s with frame := some f }, { Eff.nil with rafs := 1 })
  else
    (s, closeFrame f)

/-- `__drawPendingFrame` (part_001:352): compute the display size from the
frame, swapping width and height for orientations 90 and 270; resize the
canvas and call `__organizeHook` when the size changed; draw (`throws`
models `drawImage` raising, in which case the fps increment is skipped);
the `finally` always releases the frame and clears the slot. -/
def drawPendingFrame (throws : Bool) (s : MediaState) : MediaState × Eff :=
  match s.frame with
  | none => (s, Eff.nil)
  | some f =>
    let width := if s.orient = 90 ∨ s.orient = 270 then f.displayHeight else f.displayWidth
    let height := if s.orient = 90 ∨ s.orient = 270 then f.displayWidth else f.displayHeight
    let (s, e) :=
      if s.canvasW ≠ width ∨ s.canvasH ≠ height then
        ({ s with canvasW := width, canvasH := height }, { Eff.nil with organizes := 1 })
      else (s, Eff.nil)
    let s := if throws then s else { s with fps_accum := s.fps_accum + 1 }
    ({ s with frame := none }, Eff.app e (closeFrame f))

/-- `__wsBinHandler` (part_001:274): byte 0 = 0xFF is a pong and resets the
heartbeat miss counter; byte 0 = 0x01 is a video frame whose byte 1 is the
keyframe flag, decoded when `__ensureDecoder` accepts it. -/
def wsBinHandler (data : List Nat) (s : MediaState) : MediaState × Eff :=
  match data with
  | [] => (s, Eff.nil)
  | b0 :: rest =>
    if b0 = 255 then ({ s with missed_heartbeats := 0 }, Eff.nil)
    else if b0 = 1 then
      let key : Bool := rest.headD 0 != 0
      let r := ensureDecoder key s
      if r.2 then (r.1.1, Eff.app r.1.2 { Eff.nil with decodes := 1 }) else r.1
    else (s, Eff.nil)

end Media

namespace Mjpeg

/-- One external stream snapshot (`__state`), reduced to the parts the
streamer reads: `source.online` truthiness and the per-client stats map
`stream.clients_stat`, modelled as an association list from client id to
its reported fps. -/
structure Snapshot where
  sourceOnline : Bool
  clientsStat : List (String × Int)
deriving Repr, DecidableEq

/-- Mutable state of one `MjpegStreamer` instance (stream_mjpeg.js).
`timer = true` models a running `setInterval`; `imageSrc` is the current
`src` of the `stream-image` element; `seed` indexes the fresh-id supply
(see `makeRandomId`). -/
structure MjpegState where
  key : String
  id : String
  fps : Int
  state : Option Snapshot
  timer : Bool
  timer_retries : Int
  imageSrc : String
  seed : Nat
deriving Repr, DecidableEq

/-- Browser feature flags read from `tools.browser`. -/
structure Browser where
  safari : Bool
  ios : Bool
  chrome : Bool
  blink : Bool
deriving Repr, DecidableEq

/-- Ambient environment of the polling streamer: the URL root
(`ROOT_PREFIX` from vars.js), the browser flags, and the fresh-id supply
backing `tools.makeRandomId`. -/
structure MjCtx where
  rootPath : String
  browser : Browser
  supply : Nat → String

/-- Modelled from the spec: `tools.makeRandomId` (tools.js, not under
src/) generates an opaque fresh random session key — "sessionKey: opaque
random id … generated fresh on stop/inactive transition".  Randomness is
modelled as drawing the next id from a supply indexed by a seed counter
carried in the state. -/
def makeRandomId (ctx : MjCtx) (seed : Nat) : String × Nat :=
  (ctx.supply seed, seed + 1)

/-- Side effects of one polling-streamer handler run: callback invocations
and the values assigned to the `stream-image` `src` attribute (each
streamer-resource request appears here). -/
structure MjEff where
  actives : Nat
  inactives : Nat
  infos : List (Bool × Bool × String)
  organizes : Nat
  srcSets : List String
deriving Repr, DecidableEq

/-- No side effects. -/
def MjEff.nil : MjEff := ⟨0, 0, [], 0, []⟩

/-- Sequencing of side effects. -/
def MjEff.app (a b : MjEff) : MjEff :=
  ⟨a.actives + b.actives, a.inactives + b.inactives, a.infos ++ b.infos,
   a.organizes + b.organizes, a.srcSets ++ b.srcSets⟩

/-- JS `String.prototype.startsWith`: character-wise prefix test (JS
strings are code-unit sequences, so this is a structural prefix check). -/
def jsStartsWith (s pre : String) : Bool := pre.toList.isPrefixOf s.toList

/-- JS `String.prototype.endsWith`: character-wise suffix test. -/
def jsEndsWith (s post : String) : Bool := post.toList.isSuffixOf s.toList

/-- JS `sc.slice(sc.indexOf("/") + 1)`: everything after the first slash;
with no slash, `indexOf` is −1 and `slice(0)` returns the whole string. -/
def sliceAfterSlash (sc : String) : String :=
  match sc.toList.findIdx? (fun c => c = '/') with
  | some i => String.mk (sc.toList.drop (i + 1))
  | none => sc

/-- `__findId` (stream_mjpeg.js:174): when no id is resolved yet and the
`stream_client` cookie (the `cookie` argument; `none` covers a missing or
empty, hence falsy, cookie) starts with `key + "/"`, take the part after
the first slash as the client id. -/
def findId (cookie : Option String) (s : MjpegState) : MjpegState :=
  match cookie with
  | none => s
  | some sc =>
    if s.id.length = 0 ∧ sc ≠ "" ∧ jsStartsWith sc (s.key ++ "/") then
      { s with id := sliceAfterSlash sc }
    else s

/-- `__setStreamActive` (stream_mjpeg.js:120): read the client fps from
the snapshot stats, report activation on the transition from unknown fps,
and emit the fps info.  Callers only invoke this with the id present in
the stats of a non-null `__state`; the `getD` defaults stand for cases
where the JS would throw. -/
def setStreamActive (s : MjpegState) : MjpegState × MjEff :=
  let old_fps := s.fps
  let fps := match s.state with
    | some st => (st.clientsStat.lookup s.id).getD (-1)
    | none => -1
  let online := match s.state with
    | some st => st.sourceOnline
    | none => false
  let s := { s with fps := fps }
  let e := if old_fps < 0 then { MjEff.nil with actives := 1 } else MjEff.nil
  (s, MjEff.app e { MjEff.nil with infos := [(true, online, toString fps ++ " fps dynamic")] })

/-- `__setStreamInactive` (stream_mjpeg.js:134): regenerate the session
key, clear the id, fps and snapshot, and on the transition from a known
fps report deactivation with empty info. -/
def setStreamInactive (ctx : MjCtx) (s : MjpegState) : MjpegState × MjEff :=
  let old_fps := s.fps
  let fresh := makeRandomId ctx s.seed
  let s := { s with key := fresh.1, seed := fresh.2, id := "", fps := -1, state := none }
  (s, if old_fps ≥ 0 then { MjEff.nil with inactives := 1, infos := [(false, false, "")] }
      else MjEff.nil)

/-- `__ensureChecking` (stream_mjpeg.js:151): if no timer runs, arm the
retry budget at 10 and start the 100 ms polling interval. -/
def ensureChecking (s : MjpegState) : MjpegState :=
  if s.timer then s else { s with timer := true, timer_retries := 10 }

/-- `__stopChecking` (stream_mjpeg.js:162): clear the polling interval and
zero the retry budget. -/
def stopChecking (s : MjpegState) : MjpegState :=
  { s with timer := false, timer_retries := 0 }

/-- ASCII characters `encodeURIComponent` leaves unescaped:
alphanumerics and `- _ . ! ~ * ' ( )`. -/
def uriUnreserved (c : Char) : Bool :=
  c.isAlphanum || c = '-' || c = '_' || c = '.' || c = '!' || c = '~' ||
    c = '*' || c = Char.ofNat 39 || c = '(' || c = ')'

/-- Upper-case hexadecimal digit. -/
def hexDigit (n : Nat) : Char :=
  if n < 10 then Char.ofNat (48 + n) else Char.ofNat (55 + n)

/-- JS `encodeURIComponent` on the code-point range below 0x80 (session
keys are ASCII): unreserved characters kept, others percent-encoded. -/
def encodeURIComponent (str : String) : String :=
  String.mk ((str.toList.map (fun c =>
    if uriUnreserved c then [c]
    else ['%', hexDigit (c.toNat / 16), hexDigit (c.toNat % 16)])).flatten)

/-- The stream resource URL built in `__checkStream` (stream_mjpeg.js:200):
`ROOT_PREFIX + "streamer/stream?key=" + encodeURIComponent(key)` plus the
per-engine workaround flag (`dual_final_frames=1` for WebKit,
`advance_headers=1` for Blink). -/
def streamPath (ctx : MjCtx) (k : String) : String :=
  let path := ctx.rootPath ++ "streamer/stream?key=" ++ encodeURIComponent k
  if ctx.browser.safari || ctx.browser.ios then path ++ "&dual_final_frames=1"
  else if ctx.browser.chrome || ctx.browser.blink then path ++ "&advance_headers=1"
  else path

/-- `self.ensureStream` (stream_mjpeg.js:87): with a snapshot, store it,
try to resolve the id from the cookie, and either activate (id resolved
and present in the stats: report active, stop checking, organize) or
start checking.  With a null snapshot, stop checking and go inactive. -/
def ensureStream (ctx : MjCtx) (cookie : Option String) (snap : Option Snapshot)
    (s : MjpegState) : MjpegState × MjEff :=
  match snap with
  | some st =>
    let s := { s with state := some st }
    let s := findId cookie s
    if s.id.length > 0 ∧ (st.clientsStat.lookup s.id).isSome then
      let r := setStreamActive s
      (stopChecking r.1, MjEff.app r.2 { MjEff.nil with organizes := 1 })
    else
      (ensureChecking s, MjEff.nil)
  | none =>
    setStreamInactive ctx (stopChecking s)

/-- stream_mjpeg.js:189 tests `__id.legnth > 0 && __id in
__state.stream.clients_stat`.  `legnth` is a misspelling of `length`:
reading the nonexistent property yields `undefined`, `undefined > 0`
evaluates to `false`, and the conjunction short-circuits to `false`
without ever touching the stats map. -/
def legnthGtZero (_id : String) : Bool := false

/-- `__checkStream` (stream_mjpeg.js:186), one polling tick: re-attempt id
resolution; the first branch (activate) is guarded by the misspelled
`legnth` read and can never be taken; with a resolved id and a
non-negative retry budget, decrement the budget; otherwise go inactive,
stop checking, and re-request the stream resource with the freshly
regenerated key. -/
def checkStream (ctx : MjCtx) (cookie : Option String) (s : MjpegState) : MjpegState × MjEff :=
  let s := findId cookie s
  if legnthGtZero s.id then
    -- Dead branch, kept to mirror the source: it would activate and stop.
    let r := setStreamActive s
    (stopChecking r.1, r.2)
  else if s.id.length > 0 ∧ s.timer_retries ≥ 0 then
    ({ s with timer_retries := s.timer_retries - 1 }, MjEff.nil)
  else
    let r := setStreamInactive ctx s
    let s := stopChecking r.1
    let path := streamPath ctx s.key
    ({ s with imageSrc := path }, MjEff.app r.2 { MjEff.nil with srcSets := [path] })

/-- `self.stopStream` (stream_mjpeg.js:108): `ensureStream(null)` then
replace the image with the blank placeholder unless already showing one. -/
def stopStream (ctx : MjCtx) (s : MjpegState) : MjpegState × MjEff :=
  let r := ensureStream ctx none none s
  let blank := ctx.rootPath ++ "share/png/blank-stream.png"
  if jsEndsWith r.1.imageSrc blank then r
  else ({ r.1 with imageSrc := blank }, MjEff.app r.2 { MjEff.nil with srcSets := [blank] })

/-- The session-independent part of the polling streamer state: everything
except the opaque session key and the supply index behind it (the key is
regenerated fresh on every stop/inactive transition, so idempotence is
stated on this projection). -/
def MjpegState.core (s : MjpegState) :
    String × Int × Option Snapshot × Bool × Int × String :=
  (s.id, s.fps, s.state, s.timer, s.timer_retries, s.imageSrc)

/-- Iterated polling ticks: `checkN n` runs `__checkStream` `n` times,
accumulating effects. -/
def checkN (ctx : MjCtx) (cookie : Option String) : Nat → MjpegState → MjpegState × MjEff
  | 0, s => (s, MjEff.nil)
  | n + 1, s =>
    let r := checkStream ctx cookie s
    let r2 := checkN ctx cookie n r.1
    (r2.1, MjEff.app r.2 r2.2)

end Mjpeg

/-! ### Helper lemmas -/

theorem string_length_pos (s : String) (h : s ≠ "") : 0 < s.length := by
  cases s with
  | mk data =>
    cases data with
    | nil => exact absurd rfl h
    | cons c cs => simp [String.length]

/-! ### Claim theorems -/

/-- C1: every received binary pong message (first byte 0xFF) resets the
missed-beat counter to 0; the counter is incremented on every heartbeat
tick; and on the tick where the counter reaches 5 the connection is
forcibly closed and, unless the streamer is stopped, exactly one
reconnection attempt is scheduled after the fixed 1000 ms delay. -/
theorem c1_heartbeat_supervision (s : Media.MediaState) (rest : List Nat) :
    (Media.wsBinHandler (255 :: rest) s).1 = { s with missed_heartbeats := 0 }
    ∧ (s.missed_heartbeats + 1 < 5 →
        (Media.ping s).1.missed_heartbeats = s.missed_heartbeats + 1
        ∧ (Media.ping s).1.ws = s.ws
        ∧ (Media.ping s).2.reconnects = [])
    ∧ (s.missed_heartbeats = 4 →
        (Media.ping s).1.ws = false
        ∧ (Media.ping s).1.ping_timer = false
        ∧ (Media.ping s).2.reconnects = (if s.stop then [] else [1000])) := by
  refine ⟨by simp [Media.wsBinHandler], fun h => ?_, fun h => ?_⟩
  · have h5 : ¬ (5 ≤ s.missed_heartbeats + 1) := by omega
    simp only [Media.ping, h5, if_false]
    split <;> simp [Media.Eff.app, Media.Eff.nil]
  · have h5 : 5 ≤ s.missed_heartbeats + 1 := by omega
    cases hf : s.frame <;> cases hd : s.decoder <;> by_cases hst : s.stop <;>
      simp [Media.ping, h5, Media.wsErrorHandler, Media.wsForceClose, Media.wsCloseHandler,
        Media.closeDecoder, Media.closeFrame, Media.Eff.app, Media.Eff.nil, hf, hd, hst]

/-- C2: the Binary streamer buffers at most one undrawn decoded frame:
with an empty slot, two frames decoded before any render callback leave
exactly the first buffered; the second is discarded and released
immediately, and the first is not released. -/
theorem c2_backpressure (s : Media.MediaState) (f1 f2 : Media.Frame)
    (h : s.frame = none) :
    (Media.renderFrame f2 (Media.renderFrame f1 s).1).1.frame = some f1
    ∧ (Media.renderFrame f1 s).2.released = []
    ∧ (Media.renderFrame f2 (Media.renderFrame f1 s).1).2.released = [f2.id] := by
  simp [Media.renderFrame, h, Media.closeFrame, Media.Eff.nil]

/-- C6: every decoded frame handed to the render path is released on all
exit paths: a pending frame is released by `__drawPendingFrame` (with the
slot cleared) whether or not drawing throws; a frame evicted by the
backpressure rule is released immediately; and a frame still pending at
decoder teardown is released by `__closeDecoder` with the slot cleared. -/
theorem c6_frame_release_all_paths (s : Media.MediaState) (f g : Media.Frame)
    (throws : Bool) :
    (s.frame = some f →
      (Media.drawPendingFrame throws s).2.released = [f.id]
      ∧ (Media.drawPendingFrame throws s).1.frame = none)
    ∧ (s.frame = some f → (Media.renderFrame g s).2.released = [g.id])
    ∧ (s.frame = some f → s.decoder ≠ none →
      (Media.closeDecoder s).2.released = [f.id]
      ∧ (Media.closeDecoder s).1.frame = none) := by
  refine ⟨fun h => ?_, fun h => ?_, fun h hd => ?_⟩
  · simp only [Media.drawPendingFrame, h]
    split <;> split <;> simp [Media.closeFrame, Media.Eff.app, Media.Eff.nil]
  · simp [Media.renderFrame, h, Media.closeFrame]
  · simp [Media.closeDecoder, h, hd, Media.closeFrame]

/-- C8: `__ensureMedia` opens a new connection exactly when no connection
exists, the streamer is not stopped, and no attempt is in progress; hence
a repeated `ensureStream` with unchanged state opens nothing. -/
theorem c8_no_duplicate_connections (s : Media.MediaState) (st : Option Bool) :
    ((Media.ensureMedia false s).2.opened ≠ 0 ↔
      (s.ws = false ∧ s.stop = false ∧ s.ensuring = false))
    ∧ (Media.ensureStream st (Media.ensureStream st s).1).2.opened = 0 := by
  constructor
  · simp only [Media.ensureMedia]
    split <;> simp_all [Media.Eff.nil]
  · simp only [Media.ensureStream, Media.ensureMedia]
    split <;> simp_all [Media.Eff.nil]

/-- A MediaStreamer state with a negotiated codec and a configured
decoder, as reached after a successful stream start. -/
def mediaConfiguredState : Media.MediaState :=
  ⟨false, false, true, true, 0, "avc1.4d0032", some Media.DecState.configured,
   none, 640, 480, 0, some true, 0⟩

/-- C3, counterexample: `__closeDecoder` — the teardown run on error, stop
and reconnect — clears the negotiated codec identifier, and a subsequent
keyframe-bearing frame is then rejected by `__ensureDecoder` (no decoder
gets configured), so the identifier does not outlive those teardowns. -/
theorem c3_counterexample :
    (Media.closeDecoder mediaConfiguredState).1.codec = ""
    ∧ (Media.ensureDecoder true (Media.closeDecoder mediaConfiguredState).1).2 = false
    ∧ (Media.ensureDecoder true (Media.closeDecoder mediaConfiguredState).1).1.1.decoder = none
    ∧ (Media.ensureDecoder true (Media.closeDecoder mediaConfiguredState).1).1.2.configured = [] := by
  decide

/-- C3, amended: only on the decoder-restart path inside `__ensureDecoder`
does the codec identifier outlive the teardown: there it is saved before
and restored after the internal `__closeDecoder` call, so with a codec
negotiated and the decoder null or closed, a keyframe-bearing frame
re-creates and configures a fresh decoder with the previously negotiated
identifier, with no new format negotiation round trip. -/
theorem c3_codec_survives_decoder_restart (s : Media.MediaState) (hc : s.codec ≠ "")
    (hd : s.decoder = none ∨ s.decoder = some Media.DecState.closed) :
    (Media.ensureDecoder true s).2 = true
    ∧ (Media.ensureDecoder true s).1.1.codec = s.codec
    ∧ (Media.ensureDecoder true s).1.1.decoder = some Media.DecState.configured
    ∧ (Media.ensureDecoder true s).1.2.configured = [s.codec]
    ∧ (Media.ensureDecoder true s).1.2.startReqs = 0 := by
  rcases hd with hd | hd <;>
    cases hf : s.frame <;>
      simp [Media.ensureDecoder, Media.closeDecoder, hc, hd, hf,
        Media.closeFrame, Media.Eff.app, Media.Eff.nil]

/-- C7: `stopStream()` is idempotent on both streamers and leaves them
resource-free: for the Binary streamer a second call reproduces the exact
same state, which has no connection, no decoder, no pending frame and no
running heartbeat timer; for the Polling streamer a second call reproduces
the same state up to the freshly regenerated opaque session key, with the
polling timer stopped and the session cleared. -/
theorem c7_stop_idempotent (s : Media.MediaState)
    (hfd : s.frame = none ∨ s.decoder ≠ none)
    (ctx : Mjpeg.MjCtx) (p : Mjpeg.MjpegState) :
    (Media.stopStream (Media.stopStream s).1).1 = (Media.stopStream s).1
    ∧ (Media.stopStream s).1.ws = false
    ∧ (Media.stopStream s).1.ping_timer = false
    ∧ (Media.stopStream s).1.decoder = none
    ∧ (Media.stopStream s).1.frame = none
    ∧ (Mjpeg.stopStream ctx (Mjpeg.stopStream ctx p).1).1.core
        = (Mjpeg.stopStream ctx p).1.core
    ∧ (Mjpeg.stopStream ctx p).1.timer = false
    ∧ (Mjpeg.stopStream ctx p).1.id = ""
    ∧ (Mjpeg.stopStream ctx p).1.fps = -1
    ∧ (Mjpeg.stopStream ctx p).1.state = none := by
  refine ⟨?_, ?_, ?_, ?_, ?_, ?_, ?_, ?_, ?_, ?_⟩
  · cases hd : s.decoder <;>
      simp [Media.stopStream, Media.wsForceClose, Media.wsCloseHandler, Media.closeDecoder,
        Media.closeFrame, Media.Eff.app, Media.Eff.nil, hd]
  · cases hd : s.decoder <;>
      simp [Media.stopStream, Media.wsForceClose, Media.wsCloseHandler, Media.closeDecoder,
        Media.closeFrame, Media.Eff.app, Media.Eff.nil, hd]
  · cases hd : s.decoder <;>
      simp [Media.stopStream, Media.wsForceClose, Media.wsCloseHandler, Media.closeDecoder,
        Media.closeFrame, Media.Eff.app, Media.Eff.nil, hd]
  · cases hd : s.decoder <;>
      simp [Media.stopStream, Media.wsForceClose, Media.wsCloseHandler, Media.closeDecoder,
        Media.closeFrame, Media.Eff.app, Media.Eff.nil, hd]
  · rcases hfd with hf | hd
    · cases hd : s.decoder <;>
        simp [Media.stopStream, Media.wsForceClose, Media.wsCloseHandler, Media.closeDecoder,
          Media.closeFrame, Media.Eff.app, Media.Eff.nil, hd, hf]
    · cases hd2 : s.decoder with
      | none => exact absurd hd2 hd
      | some d =>
        simp [Media.stopStream, Media.wsForceClose, Media.wsCloseHandler, Media.closeDecoder,
          Media.closeFrame, Media.Eff.app, Media.Eff.nil, hd2]
  · by_cases hb : Mjpeg.jsEndsWith p.imageSrc (ctx.rootPath ++ "share/png/blank-stream.png") <;>
      simp [Mjpeg.stopStream, Mjpeg.ensureStream, Mjpeg.stopChecking, Mjpeg.setStreamInactive,
        Mjpeg.makeRandomId, Mjpeg.MjpegState.core, Mjpeg.MjEff.app, Mjpeg.MjEff.nil, hb] <;>
      (try split) <;> (try simp)
  · by_cases hb : Mjpeg.jsEndsWith p.imageSrc (ctx.rootPath ++ "share/png/blank-stream.png") <;>
      simp [Mjpeg.stopStream, Mjpeg.ensureStream, Mjpeg.stopChecking, Mjpeg.setStreamInactive,
        Mjpeg.makeRandomId, Mjpeg.MjEff.app, Mjpeg.MjEff.nil, hb]
  · by_cases hb : Mjpeg.jsEndsWith p.imageSrc (ctx.rootPath ++ "share/png/blank-stream.png") <;>
      simp [Mjpeg.stopStream, Mjpeg.ensureStream, Mjpeg.stopChecking, Mjpeg.setStreamInactive,
        Mjpeg.makeRandomId, Mjpeg.MjEff.app, Mjpeg.MjEff.nil, hb]
  · by_cases hb : Mjpeg.jsEndsWith p.imageSrc (ctx.rootPath ++ "share/png/blank-stream.png") <;>
      simp [Mjpeg.stopStream, Mjpeg.ensureStream, Mjpeg.stopChecking, Mjpeg.setStreamInactive,
        Mjpeg.makeRandomId, Mjpeg.MjEff.app, Mjpeg.MjEff.nil, hb]
  · by_cases hb : Mjpeg.jsEndsWith p.imageSrc (ctx.rootPath ++ "share/png/blank-stream.png") <;>
      simp [Mjpeg.stopStream, Mjpeg.ensureStream, Mjpeg.stopChecking, Mjpeg.setStreamInactive,
        Mjpeg.makeRandomId, Mjpeg.MjEff.app, Mjpeg.MjEff.nil, hb]

/-- Characterization of the canvas size and `__organizeHook` behaviour of
`__drawPendingFrame` on a pending frame. -/
theorem drawPendingFrame_canvas (throws : Bool) (s : Media.MediaState) (f : Media.Frame)
    (h : s.frame = some f) :
    (Media.drawPendingFrame throws s).1.canvasW
      = (if s.orient = 90 ∨ s.orient = 270 then f.displayHeight else f.displayWidth)
    ∧ (Media.drawPendingFrame throws s).1.canvasH
      = (if s.orient = 90 ∨ s.orient = 270 then f.displayWidth else f.displayHeight)
    ∧ (Media.drawPendingFrame throws s).2.organizes
      = (if s.canvasW = (if s.orient = 90 ∨ s.orient = 270 then f.displayHeight else f.displayWidth)
            ∧ s.canvasH = (if s.orient = 90 ∨ s.orient = 270 then f.displayWidth else f.displayHeight)
         then 0 else 1) := by
  rcases Decidable.em (s.orient = 90 ∨ s.orient = 270) with hsw | hsw
  · rcases Decidable.em (s.canvasW = f.displayHeight ∧ s.canvasH = f.displayWidth) with hc | hc
    · have hc2 : ¬ (¬s.canvasW = f.displayHeight ∨ ¬s.canvasH = f.displayWidth) := by tauto
      cases throws <;>
        simp [Media.drawPendingFrame, h, hsw, hc, hc.1, hc.2, hc2,
          Media.Eff.app, Media.Eff.nil, Media.closeFrame]
    · have hc2 : ¬s.canvasW = f.displayHeight ∨ ¬s.canvasH = f.displayWidth := by tauto
      cases throws <;>
        simp [Media.drawPendingFrame, h, hsw, hc, hc2,
          Media.Eff.app, Media.Eff.nil, Media.closeFrame]
  · rcases Decidable.em (s.canvasW = f.displayWidth ∧ s.canvasH = f.displayHeight) with hc | hc
    · have hc2 : ¬ (¬s.canvasW = f.displayWidth ∨ ¬s.canvasH = f.displayHeight) := by tauto
      cases throws <;>
        simp [Media.drawPendingFrame, h, hsw, hc, hc.1, hc.2, hc2,
          Media.Eff.app, Media.Eff.nil, Media.closeFrame]
    · have hc2 : ¬s.canvasW = f.displayWidth ∨ ¬s.canvasH = f.displayHeight := by tauto
      cases throws <;>
        simp [Media.drawPendingFrame, h, hsw, hc, hc2,
          Media.Eff.app, Media.Eff.nil, Media.closeFrame]

/-- C9: for every orientation in {0, 90, 180, 270} the drawn surface gets
the frame's natural width/height for 0 and 180 and their swap for 90 and
270; the surface is resized together with an `__organizeHook` call exactly
when the computed size differs from the current surface size. -/
theorem c9_orientation_mapping (s : Media.MediaState) (f : Media.Frame)
    (throws : Bool) (h : s.frame = some f) :
    ((s.orient = 0 ∨ s.orient = 180) →
      (Media.drawPendingFrame throws s).1.canvasW = f.displayWidth
      ∧ (Media.drawPendingFrame throws s).1.canvasH = f.displayHeight)
    ∧ ((s.orient = 90 ∨ s.orient = 270) →
      (Media.drawPendingFrame throws s).1.canvasW = f.displayHeight
      ∧ (Media.drawPendingFrame throws s).1.canvasH = f.displayWidth)
    ∧ (((Media.drawPendingFrame throws s).1.canvasW ≠ s.canvasW
        ∨ (Media.drawPendingFrame throws s).1.canvasH ≠ s.canvasH) →
      (Media.drawPendingFrame throws s).2.organizes = 1)
    ∧ (((Media.drawPendingFrame throws s).1.canvasW = s.canvasW
        ∧ (Media.drawPendingFrame throws s).1.canvasH = s.canvasH) →
      (Media.drawPendingFrame throws s).2.organizes = 0) := by
  obtain ⟨hW, hH, hO⟩ := drawPendingFrame_canvas throws s f h
  refine ⟨fun ho => ?_, fun ho => ?_, fun hne => ?_, fun heq => ?_⟩
  · have hsw : ¬ (s.orient = 90 ∨ s.orient = 270) := by rcases ho with h0 | h0 <;> omega
    rw [hW, hH, if_neg hsw, if_neg hsw]
    exact ⟨rfl, rfl⟩
  · rw [hW, hH, if_pos ho, if_pos ho]
    exact ⟨rfl, rfl⟩
  · rw [hW, hH] at hne
    rw [hO]
    have hc : ¬ (s.canvasW = (if s.orient = 90 ∨ s.orient = 270 then f.displayHeight else f.displayWidth)
        ∧ s.canvasH = (if s.orient = 90 ∨ s.orient = 270 then f.displayWidth else f.displayHeight)) := by
      intro hc
      rcases hne with hne | hne
      · exact hne hc.1.symm
      · exact hne hc.2.symm
    rw [if_neg hc]
  · rw [hW, hH] at heq
    rw [hO, if_pos ⟨heq.1.symm, heq.2.symm⟩]

/-! ### Polling supervisor lemmas -/

theorem findId_of_id_ne (cookie : Option String) (s : Mjpeg.MjpegState) (h : s.id ≠ "") :
    Mjpeg.findId cookie s = s := by
  cases cookie with
  | none => rfl
  | some sc =>
    have hlen : ¬ s.id.length = 0 := by
      have := string_length_pos s.id h
      omega
    simp [Mjpeg.findId, hlen]

theorem findId_fields (cookie : Option String) (s : Mjpeg.MjpegState) :
    (Mjpeg.findId cookie s).key = s.key ∧ (Mjpeg.findId cookie s).seed = s.seed
    ∧ (Mjpeg.findId cookie s).timer = s.timer
    ∧ (Mjpeg.findId cookie s).timer_retries = s.timer_retries
    ∧ (Mjpeg.findId cookie s).fps = s.fps
    ∧ (Mjpeg.findId cookie s).state = s.state := by
  cases cookie with
  | none => exact ⟨rfl, rfl, rfl, rfl, rfl, rfl⟩
  | some sc =>
    simp only [Mjpeg.findId]
    split <;> simp

theorem checkStream_decrements (ctx : Mjpeg.MjCtx) (cookie : Option String)
    (s : Mjpeg.MjpegState) (hid : s.id ≠ "") (hr : 0 ≤ s.timer_retries) :
    Mjpeg.checkStream ctx cookie s
      = ({ s with timer_retries := s.timer_retries - 1 }, Mjpeg.MjEff.nil) := by
  have hlen : 0 < s.id.length := string_length_pos s.id hid
  simp [Mjpeg.checkStream, findId_of_id_ne cookie s hid, Mjpeg.legnthGtZero, hlen, hr]

theorem checkN_decrements (ctx : Mjpeg.MjCtx) (cookie : Option String) (n : Nat) :
    ∀ s : Mjpeg.MjpegState, s.id ≠ "" → (n : Int) ≤ s.timer_retries + 1 →
      Mjpeg.checkN ctx cookie n s
        = ({ s with timer_retries := s.timer_retries - (n : Int) }, Mjpeg.MjEff.nil) := by
  induction n with
  | zero =>
    intro s hid hn
    simp [Mjpeg.checkN]
  | succ n ih =>
    intro s hid hn
    have hr : 0 ≤ s.timer_retries := by
      have hc : ((n : Int) + 1) ≤ s.timer_retries + 1 := by push_cast at hn ⊢; omega
      omega
    have hstep := checkStream_decrements ctx cookie s hid hr
    have hih := ih { s with timer_retries := s.timer_retries - 1 } hid
      (by push_cast at hn ⊢; simp; omega)
    simp only [Mjpeg.checkN, hstep, hih]
    have harith : s.timer_retries - 1 - (n : Int) = s.timer_retries - ((n : Nat) + 1 : Nat) := by
      push_cast
      ring
    simp [harith, Mjpeg.MjEff.app, Mjpeg.MjEff.nil]

theorem checkN_exhausts (ctx : Mjpeg.MjCtx) (cookie : Option String) (n : Nat) :
    ∀ s : Mjpeg.MjpegState, s.id ≠ "" → s.timer_retries + 1 = (n : Int) →
      (Mjpeg.checkN ctx cookie (n + 1) s).1.key = ctx.supply s.seed
      ∧ (Mjpeg.checkN ctx cookie (n + 1) s).1.id = ""
      ∧ (Mjpeg.checkN ctx cookie (n + 1) s).1.timer = false
      ∧ (Mjpeg.checkN ctx cookie (n + 1) s).1.fps = -1
      ∧ (Mjpeg.checkN ctx cookie (n + 1) s).2.srcSets
          = [Mjpeg.streamPath ctx (ctx.supply s.seed)] := by
  induction n with
  | zero =>
    intro s hid hn
    have hr : ¬ (0 ≤ s.timer_retries) := by
      simp at hn
      omega
    have hlen : 0 < s.id.length := string_length_pos s.id hid
    simp [Mjpeg.checkN, Mjpeg.checkStream, findId_of_id_ne cookie s hid, Mjpeg.legnthGtZero,
      hr, Mjpeg.setStreamInactive, Mjpeg.makeRandomId, Mjpeg.stopChecking,
      Mjpeg.MjEff.app, Mjpeg.MjEff.nil]
    split <;> simp
  | succ n ih =>
    intro s hid hn
    have hr : 0 ≤ s.timer_retries := by
      push_cast at hn
      omega
    have hstep := checkStream_decrements ctx cookie s hid hr
    have hih := ih { s with timer_retries := s.timer_retries - 1 } hid
      (by push_cast at hn ⊢; omega)
    rw [show n + 1 + 1 = (n + 1) + 1 from rfl, Mjpeg.checkN]
    simp only [hstep]
    refine ⟨?_, ?_, ?_, ?_, ?_⟩ <;>
      simp [Mjpeg.MjEff.app, Mjpeg.MjEff.nil,
        hih.1, hih.2.1, hih.2.2.1, hih.2.2.2.1, hih.2.2.2.2]

/-- Environment for a concrete polling run: root `"/"`, a browser with no
workaround flags, and a deterministic fresh-id supply. -/
def mj4ctx : Mjpeg.MjCtx := ⟨"/", ⟨false, false, false, false⟩, fun n => "r" ++ toString n⟩

/-- Snapshot whose stats map contains client `"42"` at 30 fps. -/
def mj4snap : Mjpeg.Snapshot := ⟨true, [("42", 30)]⟩

/-- Polling state with session key `"k"`, no id resolved yet, the snapshot
`mj4snap` stored, and the polling timer freshly armed with budget 10. -/
def mj4state : Mjpeg.MjpegState := ⟨"k", "", -1, some mj4snap, true, 10, "img", 0⟩

/-- C4: the claimed Active transition on a polling tick does not happen.
With session key `"k"`, cookie `"k/42"`, and client `"42"` present in the
stored snapshot stats, one `__checkStream` tick resolves the id but then
merely decrements the retry budget: the timer keeps running, `__setActive`
is never invoked and no resource request is made — because line 189 reads
the misspelled `legnth` property, which is `undefined`, so the activation
condition is always false on the tick path. -/
theorem c4_tick_never_activates :
    (mj4snap.clientsStat.lookup "42").isSome = true
    ∧ (Mjpeg.findId (some "k/42") mj4state).id = "42"
    ∧ (Mjpeg.checkStream mj4ctx (some "k/42") mj4state).1.timer = true
    ∧ (Mjpeg.checkStream mj4ctx (some "k/42") mj4state).1.timer_retries = 9
    ∧ (Mjpeg.checkStream mj4ctx (some "k/42") mj4state).2.actives = 0
    ∧ (Mjpeg.checkStream mj4ctx (some "k/42") mj4state).2.srcSets = [] := by
  decide

/-- C5: with a resolved client id and the timer armed at budget 10, the
budget is decremented once per tick for 11 ticks (the `>= 0` comparison
allows one extra tick beyond the documented 10, as the spec notes) with no
resource request; on tick 12 the budget is exhausted: the supervisor goes
inactive, regenerates the session key, stops polling, and re-requests the
stream resource exactly once, with the freshly encoded new key. -/
theorem c5_retry_budget_exhaustion (ctx : Mjpeg.MjCtx) (cookie : Option String)
    (s : Mjpeg.MjpegState) (st : Mjpeg.Snapshot)
    (hid : s.id ≠ "") (hsnap : s.state = some st)
    (habs : st.clientsStat.lookup s.id = none)
    (htimer : s.timer = true) (hretr : s.timer_retries = 10) :
    (∀ n : Nat, n ≤ 11 →
      (Mjpeg.checkN ctx cookie n s).1.timer_retries = 10 - (n : Int)
      ∧ (Mjpeg.checkN ctx cookie n s).1.timer = true
      ∧ (Mjpeg.checkN ctx cookie n s).2.srcSets = [])
    ∧ (Mjpeg.checkN ctx cookie 12 s).1.key = ctx.supply s.seed
    ∧ (Mjpeg.checkN ctx cookie 12 s).1.id = ""
    ∧ (Mjpeg.checkN ctx cookie 12 s).1.timer = false
    ∧ (Mjpeg.checkN ctx cookie 12 s).2.srcSets
        = [Mjpeg.streamPath ctx (ctx.supply s.seed)] := by
  constructor
  · intro n hn
    rw [checkN_decrements ctx cookie n s hid (by rw [hretr]; push_cast; omega)]
    exact ⟨by simp [hretr], htimer, rfl⟩
  · have hex := checkN_exhausts ctx cookie 11 s hid (by rw [hretr]; norm_num)
    norm_num at hex
    exact ⟨hex.1, hex.2.1, hex.2.2.1, hex.2.2.2.2⟩

/-- C10: on a polling tick where no client id is resolved (including the
tick's own resolution attempt), the supervisor immediately takes the
failure path regardless of the remaining retry budget — it goes inactive,
regenerates the session key, re-requests the resource, and stops polling —
whereas with a resolved id and remaining budget the tick only decrements,
so the budget delays the failure path only after an id is resolved. -/
theorem c10_unresolved_id_fails_immediately (ctx : Mjpeg.MjCtx) (cookie : Option String)
    (s : Mjpeg.MjpegState) (h : (Mjpeg.findId cookie s).id = "") :
    (Mjpeg.checkStream ctx cookie s).1.timer = false
    ∧ (Mjpeg.checkStream ctx cookie s).1.id = ""
    ∧ (Mjpeg.checkStream ctx cookie s).1.key = ctx.supply s.seed
    ∧ (Mjpeg.checkStream ctx cookie s).2.srcSets
        = [Mjpeg.streamPath ctx (ctx.supply s.seed)]
    ∧ (∀ s2 : Mjpeg.MjpegState, s2.id ≠ "" → 0 ≤ s2.timer_retries →
        (Mjpeg.checkStream ctx cookie s2).2.srcSets = []
        ∧ (Mjpeg.checkStream ctx cookie s2).1.timer = s2.timer) := by
  have hseed := (findId_fields cookie s).2.1
  refine ⟨?_, ?_, ?_, ?_, fun s2 h2 hr2 => ?_⟩
  · simp [Mjpeg.checkStream, Mjpeg.legnthGtZero, h, Mjpeg.setStreamInactive,
      Mjpeg.makeRandomId, Mjpeg.stopChecking, Mjpeg.MjEff.app, Mjpeg.MjEff.nil]
  · simp [Mjpeg.checkStream, Mjpeg.legnthGtZero, h, Mjpeg.setStreamInactive,
      Mjpeg.makeRandomId, Mjpeg.stopChecking, Mjpeg.MjEff.app, Mjpeg.MjEff.nil]
  · simp [Mjpeg.checkStream, Mjpeg.legnthGtZero, h, hseed, Mjpeg.setStreamInactive,
      Mjpeg.makeRandomId, Mjpeg.stopChecking, Mjpeg.MjEff.app, Mjpeg.MjEff.nil]
  · simp [Mjpeg.checkStream, Mjpeg.legnthGtZero, h, hseed, Mjpeg.setStreamInactive,
      Mjpeg.makeRandomId, Mjpeg.stopChecking, Mjpeg.MjEff.app, Mjpeg.MjEff.nil] <;>
      (try split) <;> simp
  · rw [checkStream_decrements ctx cookie s2 h2 hr2]
    exact ⟨rfl, rfl⟩

/-! ### Witnesses -/

/-- A connected heartbeat state with four missed beats (the next tick
reaches the threshold of 5). -/
def wHeartbeatFour : Media.MediaState :=
  ⟨false, false, true, true, 4, "", none, none, 0, 0, 0, none, 0⟩

/-- A freshly connected heartbeat state with no missed beats. -/
def wHeartbeatZero : Media.MediaState :=
  ⟨false, false, true, true, 0, "", none, none, 0, 0, 0, none, 0⟩

/-- Witness for C1 at concrete states: a below-threshold tick increments
the counter without closing, and the threshold tick closes and schedules
the reconnect. -/
theorem c1_heartbeat_supervision_witness :
    ((Media.ping wHeartbeatZero).1.missed_heartbeats = wHeartbeatZero.missed_heartbeats + 1
      ∧ (Media.ping wHeartbeatZero).1.ws = wHeartbeatZero.ws
      ∧ (Media.ping wHeartbeatZero).2.reconnects = [])
    ∧ ((Media.ping wHeartbeatFour).1.ws = false
      ∧ (Media.ping wHeartbeatFour).1.ping_timer = false
      ∧ (Media.ping wHeartbeatFour).2.reconnects
          = (if wHeartbeatFour.stop then [] else [1000])) :=
  ⟨(c1_heartbeat_supervision wHeartbeatZero []).2.1 (by decide),
   (c1_heartbeat_supervision wHeartbeatFour []).2.2 (by decide)⟩

/-- A streaming state whose pending-frame slot is empty. -/
def wEmptySlot : Media.MediaState :=
  ⟨false, false, true, true, 0, "avc1.4d0032", some Media.DecState.configured,
   none, 0, 0, 0, some true, 0⟩

/-- Witness for C2 with two concrete frames decoded back to back. -/
theorem c2_backpressure_witness :
    (Media.renderFrame ⟨2, 8, 6⟩ (Media.renderFrame ⟨1, 4, 3⟩ wEmptySlot).1).1.frame
        = some ⟨1, 4, 3⟩
    ∧ (Media.renderFrame ⟨1, 4, 3⟩ wEmptySlot).2.released = []
    ∧ (Media.renderFrame ⟨2, 8, 6⟩ (Media.renderFrame ⟨1, 4, 3⟩ wEmptySlot).1).2.released
        = [(⟨2, 8, 6⟩ : Media.Frame).id] :=
  c2_backpressure wEmptySlot ⟨1, 4, 3⟩ ⟨2, 8, 6⟩ rfl

/-- A state with a negotiated codec whose decoder has closed itself. -/
def wClosedDecoder : Media.MediaState :=
  ⟨false, false, true, true, 0, "avc1.4d0032", some Media.DecState.closed,
   none, 0, 0, 0, some true, 0⟩

/-- Witness for C3 (amended) at a concrete closed-decoder state. -/
theorem c3_codec_survives_decoder_restart_witness :
    (Media.ensureDecoder true wClosedDecoder).2 = true
    ∧ (Media.ensureDecoder true wClosedDecoder).1.1.codec = wClosedDecoder.codec
    ∧ (Media.ensureDecoder true wClosedDecoder).1.1.decoder = some Media.DecState.configured
    ∧ (Media.ensureDecoder true wClosedDecoder).1.2.configured = [wClosedDecoder.codec]
    ∧ (Media.ensureDecoder true wClosedDecoder).1.2.startReqs = 0 :=
  c3_codec_survives_decoder_restart wClosedDecoder (by decide) (Or.inr rfl)

/-- Environment for the concrete C5 polling run. -/
def w5ctx : Mjpeg.MjCtx := ⟨"/", ⟨false, false, false, false⟩, fun n => "k" ++ toString n⟩

/-- Polling state with a resolved id `"7"`, a snapshot with empty stats,
and the timer armed at budget 10. -/
def w5state : Mjpeg.MjpegState := ⟨"k3", "7", -1, some ⟨true, []⟩, true, 10, "img", 3⟩

/-- Witness for C5 at a concrete exhaustion run of 12 ticks. -/
theorem c5_retry_budget_exhaustion_witness :
    ((Mjpeg.checkN w5ctx none 11 w5state).1.timer_retries = 10 - (11 : Nat)
      ∧ (Mjpeg.checkN w5ctx none 11 w5state).1.timer = true
      ∧ (Mjpeg.checkN w5ctx none 11 w5state).2.srcSets = [])
    ∧ (Mjpeg.checkN w5ctx none 12 w5state).1.key = w5ctx.supply w5state.seed
    ∧ (Mjpeg.checkN w5ctx none 12 w5state).1.timer = false
    ∧ (Mjpeg.checkN w5ctx none 12 w5state).2.srcSets
        = [Mjpeg.streamPath w5ctx (w5ctx.supply w5state.seed)] :=
  have h := c5_retry_budget_exhaustion w5ctx none w5state ⟨true, []⟩
    (by decide) rfl rfl rfl rfl
  ⟨h.1 11 (by decide), h.2.1, h.2.2.2.1, h.2.2.2.2⟩

/-- A streaming state holding one pending frame. -/
def wPendingFrame : Media.MediaState :=
  ⟨false, false, true, true, 0, "avc1.4d0032", some Media.DecState.configured,
   some ⟨9, 20, 10⟩, 0, 0, 0, some true, 0⟩

/-- Witness for C6 at a concrete pending-frame state, with the draw
throwing. -/
theorem c6_frame_release_all_paths_witness :
    ((Media.drawPendingFrame true wPendingFrame).2.released = [(⟨9, 20, 10⟩ : Media.Frame).id]
      ∧ (Media.drawPendingFrame true wPendingFrame).1.frame = none)
    ∧ (Media.renderFrame ⟨8, 2, 2⟩ wPendingFrame).2.released = [(⟨8, 2, 2⟩ : Media.Frame).id]
    ∧ ((Media.closeDecoder wPendingFrame).2.released = [(⟨9, 20, 10⟩ : Media.Frame).id]
      ∧ (Media.closeDecoder wPendingFrame).1.frame = none) :=
  ⟨(c6_frame_release_all_paths wPendingFrame ⟨9, 20, 10⟩ ⟨8, 2, 2⟩ true).1 rfl,
   (c6_frame_release_all_paths wPendingFrame ⟨9, 20, 10⟩ ⟨8, 2, 2⟩ true).2.1 rfl,
   (c6_frame_release_all_paths wPendingFrame ⟨9, 20, 10⟩ ⟨8, 2, 2⟩ true).2.2 rfl (by decide)⟩

/-- A polling state showing an active stream image. -/
def w7poll : Mjpeg.MjpegState := ⟨"k9", "5", 24, some ⟨true, [("5", 24)]⟩, true, 4, "img", 9⟩

/-- Witness for C7 with a concrete connected Binary state and a concrete
active Polling state. -/
theorem c7_stop_idempotent_witness :
    (Media.stopStream (Media.stopStream wEmptySlot).1).1 = (Media.stopStream wEmptySlot).1
    ∧ (Media.stopStream wEmptySlot).1.decoder = none
    ∧ (Mjpeg.stopStream w5ctx (Mjpeg.stopStream w5ctx w7poll).1).1.core
        = (Mjpeg.stopStream w5ctx w7poll).1.core
    ∧ (Mjpeg.stopStream w5ctx w7poll).1.timer = false :=
  have h := c7_stop_idempotent wEmptySlot (Or.inl rfl) w5ctx w7poll
  ⟨h.1, h.2.2.2.1, h.2.2.2.2.2.1, h.2.2.2.2.2.2.1⟩

/-- A 90°-oriented streaming state holding one pending frame. -/
def wOriented : Media.MediaState :=
  ⟨false, false, true, true, 0, "avc1.4d0032", some Media.DecState.configured,
   some ⟨3, 100, 60⟩, 0, 0, 0, some true, 90⟩

/-- Witness for C9 at orientation 90: width and height swap and the
resize invokes the layout hook. -/
theorem c9_orientation_mapping_witness :
    ((Media.drawPendingFrame false wOriented).1.canvasW
        = (⟨3, 100, 60⟩ : Media.Frame).displayHeight
      ∧ (Media.drawPendingFrame false wOriented).1.canvasH
        = (⟨3, 100, 60⟩ : Media.Frame).displayWidth)
    ∧ (((Media.drawPendingFrame false wOriented).1.canvasW ≠ wOriented.canvasW
        ∨ (Media.drawPendingFrame false wOriented).1.canvasH ≠ wOriented.canvasH) →
      (Media.drawPendingFrame false wOriented).2.organizes = 1) :=
  ⟨(c9_orientation_mapping wOriented ⟨3, 100, 60⟩ false rfl).2.1 (Or.inl rfl),
   (c9_orientation_mapping wOriented ⟨3, 100, 60⟩ false rfl).2.2.1⟩

/-- A polling state with no resolved id and plenty of retry budget. -/
def w10state : Mjpeg.MjpegState := ⟨"k1", "", -1, some ⟨true, []⟩, true, 10, "img", 1⟩

/-- Witness for C10: with no cookie, one tick immediately fails over. -/
theorem c10_unresolved_id_fails_immediately_witness :
    (Mjpeg.checkStream w5ctx none w10state).1.timer = false
    ∧ (Mjpeg.checkStream w5ctx none w10state).2.srcSets
        = [Mjpeg.streamPath w5ctx (w5ctx.supply w10state.seed)] :=
  have h := c10_unresolved_id_fails_immediately w5ctx none w10state rfl
  ⟨h.1, h.2.2.2.1⟩
